import Mathlib

/-!
Shallow embedding of the quota-gated file registry of `src/main.py`
(duplicated, truncated, in `src/Main.py`).

Conventions of the embedding:
* Telegram user ids are `Int`; wall-clock instants are `Int` (a timestamp).
* A Python `dict` keyed by user id is a function `Int → Option _` or, for the
  `user_files` / `user_favorites` dicts whose reads all use `.get(user_id, [])`,
  a function `Int → List _` defaulting to `[]`.
* A Python `set` is a function `Int → Bool`.
* A SQLite table is a list of its rows, in insertion order.
* `datetime` values stored as ISO text are modelled by `ExpiryText`: either a
  value that `datetime.fromisoformat` parses to a timestamp, or an invalid
  string on which it raises `ValueError`.
* The environment-derived constants `OWNER_ID` / `ADMIN_ID` (main.py lines
  47-49) are gathered in a `Config` parameter.
-/

namespace AssassinHosting

/-- Environment-derived configuration: `OWNER_ID` and `ADMIN_ID`
(main.py lines 26-27, 47-49). -/
structure Config where
  OWNER_ID : Int
  ADMIN_ID : Int
deriving DecidableEq, Repr

/-- A file-count ceiling.  `OWNER_LIMIT = float('inf')` (main.py line 66) is
modelled as the distinct sentinel `unbounded`; the other limits are finite. -/
inductive Limit where
  | unbounded : Limit
  | finite (n : Nat) : Limit
deriving DecidableEq, Repr

/-- `current_count >= limit` is false, i.e. there is room for one more file. -/
def Limit.allows : Limit → Nat → Bool
  | .unbounded, _ => true
  | .finite n, count => count < n

/-- `count <= limit`: the invariant relation between a file count and a ceiling. -/
def Limit.atMost : Limit → Nat → Bool
  | .unbounded, _ => true
  | .finite n, count => count ≤ n

/-- An ISO-formatted expiry text as stored in the `subscriptions` table:
either parseable by `datetime.fromisoformat` (carrying the timestamp it
denotes) or a string on which parsing raises `ValueError`. -/
inductive ExpiryText where
  | valid (t : Int) : ExpiryText
  | invalid (raw : String) : ExpiryText
deriving DecidableEq, Repr

/-- `datetime.fromisoformat`, abstracted: `some` on parseable text,
`none` where the Python code would raise `ValueError`. -/
def fromisoformat : ExpiryText → Option Int
  | .valid t => some t
  | .invalid _ => none

/-- The in-memory caches (module-level globals, main.py lines 74-82). -/
structure Cache where
  user_subscriptions : Int → Option Int
  user_files : Int → List (String × String)
  user_favorites : Int → List String
  banned_users : Int → Bool
  active_users : Int → Bool
  admin_ids : Int → Bool
  bot_locked : Bool
  bot_stats : String → Option Int

/-- The durable SQLite tables (schema of `init_db`, main.py lines 115-134).
The `join_date`/`last_active` columns of `active_users` are modelled as the
two timestamps of each row; `banned_date`/`reason` and `upload_date` columns
are omitted because no code under `src/` ever reads them. -/
structure Store where
  subscriptions : List (Int × ExpiryText)
  user_files : List (Int × String × String)
  active_users : List (Int × Int × Int)
  admins : List Int
  banned_users : List Int
  favorites : List (Int × String)
  bot_stats : List (String × Int)

/-- The initial values of the module-level globals (main.py lines 74-82):
empty dicts and sets, except `admin_ids = {ADMIN_ID, OWNER_ID}` and
`bot_stats` holding the three counters at `0`. -/
def initCache (cfg : Config) : Cache where
  user_subscriptions := fun _ => none
  user_files := fun _ => []
  user_favorites := fun _ => []
  banned_users := fun _ => false
  active_users := fun _ => false
  admin_ids := fun u => u == cfg.ADMIN_ID || u == cfg.OWNER_ID
  bot_locked := false
  bot_stats := fun s =>
    if s = "total_uploads" ∨ s = "total_downloads" ∨ s = "total_runs" then some 0 else none

/-- `INSERT OR IGNORE INTO admins (user_id) VALUES (?)` (main.py lines 135-137). -/
def insertOrIgnoreAdmin (l : List Int) (u : Int) : List Int :=
  if l.contains u then l else l ++ [u]

/-- `init_db` (main.py lines 115-144): creates the tables if missing (implicit
here, since a `Store` presumes all tables exist), seeds the `admins` table with
`OWNER_ID` and — when distinct — `ADMIN_ID`, and seeds the three stat rows. -/
def init_db (cfg : Config) (store : Store) : Store :=
  let adm := insertOrIgnoreAdmin store.admins cfg.OWNER_ID
  let adm := if cfg.ADMIN_ID ≠ cfg.OWNER_ID then insertOrIgnoreAdmin adm cfg.ADMIN_ID else adm
  let stats := ["total_uploads", "total_downloads", "total_runs"].foldl
    (fun rows name => if rows.any (fun r => r.1 == name) then rows else rows ++ [(name, 0)])
    store.bot_stats
  { store with admins := adm, bot_stats := stats }

/-- `load_data` (main.py lines 146-179): reads every table and merges it into
the module-level caches.  Subscription rows whose expiry text fails
`datetime.fromisoformat` are skipped (the `except ValueError` branch,
lines 153-156); the set-typed caches are unioned via `.update(...)`;
the dict-typed caches are written row by row (later rows overwrite). -/
def load_data (st : Cache) (store : Store) : Cache :=
  let subs := store.subscriptions.foldl
    (fun f r => match fromisoformat r.2 with
      | some t => fun u => if u = r.1 then some t else f u
      | none => f)
    st.user_subscriptions
  let files := store.user_files.foldl
    (fun f r => fun u => if u = r.1 then f r.1 ++ [(r.2.1, r.2.2)] else f u)
    st.user_files
  let act := fun u => st.active_users u || store.active_users.any (fun r => r.1 == u)
  let adm := fun u => st.admin_ids u || store.admins.contains u
  let ban := fun u => st.banned_users u || store.banned_users.contains u
  let fav := store.favorites.foldl
    (fun f r => fun u => if u = r.1 then f r.1 ++ [r.2] else f u)
    st.user_favorites
  let stats := store.bot_stats.foldl
    (fun f r => fun s => if s = r.1 then some r.2 else f s)
    st.bot_stats
  { st with
      user_subscriptions := subs
      user_files := files
      active_users := act
      admin_ids := adm
      banned_users := ban
      user_favorites := fav
      bot_stats := stats }

/-- Last-assignment-wins lookup: the value the dict-style row-by-row
assignment of `load_data` leaves for a key, `none` when no row has the key
(a later row with the same key shadows an earlier one). -/
def lookupAssignedLast {β : Type} : List (Int × β) → Int → Option β
  | [], _ => none
  | r :: rest, k =>
      match lookupAssignedLast rest k with
      | some v => some v
      | none => if k = r.1 then some r.2 else none

/-- Same, keyed by `String`, for the `bot_stats` table. -/
def lookupStatLast : List (String × Int) → String → Option Int
  | [], _ => none
  | r :: rest, k =>
      match lookupStatLast rest k with
      | some v => some v
      | none => if k = r.1 then some r.2 else none

def FREE_USER_LIMIT : Nat := 20
def SUBSCRIBED_USER_LIMIT : Nat := 50
def ADMIN_LIMIT : Nat := 999
def OWNER_LIMIT : Limit := .unbounded

/-- `get_user_file_limit` (main.py lines 185-190). -/
def get_user_file_limit (cfg : Config) (st : Cache) (now u : Int) : Limit :=
  if u = cfg.OWNER_ID then OWNER_LIMIT
  else if st.admin_ids u then .finite ADMIN_LIMIT
  else match st.user_subscriptions u with
    | some expiry => if expiry > now then .finite SUBSCRIBED_USER_LIMIT
                     else .finite FREE_USER_LIMIT
    | none => .finite FREE_USER_LIMIT

/-- The role classification of the specification's quota table,
with its stated precedence (Owner before Admin before Subscriber). -/
inductive Role where
  | owner | admin | subscriber | free
deriving DecidableEq, Repr

/-- Subscription activeness as the specification words it:
a subscription exists and its `expiry > now` (strict, wall-clock at check time). -/
def subscriptionActive (st : Cache) (now u : Int) : Bool :=
  match st.user_subscriptions u with
  | some expiry => now < expiry
  | none => false

/-- Role of a user under the specification's precedence order. -/
def roleOf (cfg : Config) (st : Cache) (now u : Int) : Role :=
  if u = cfg.OWNER_ID then .owner
  else if st.admin_ids u then .admin
  else if subscriptionActive st now u then .subscriber
  else .free

/-- The specification's quota table: Owner → unbounded, Admin → 999,
active Subscriber → 50, everyone else → 20. -/
def specTableLimit : Role → Limit
  | .owner => .unbounded
  | .admin => .finite 999
  | .subscriber => .finite 50
  | .free => .finite 20

/-- Outcome of the `/start` handler. -/
inductive StartResult where
  | bannedNotice : StartResult
  | welcome (limit : Limit) (premium : Bool) : StartResult
  | persistenceError : StartResult
deriving DecidableEq, Repr

/-- `cmd_start` (main.py lines 245-297).  The ban check comes first and
returns with no mutation; otherwise `active_users.add(user_id)` updates the
cache, then a single `INSERT OR REPLACE INTO active_users` store write is
attempted inside `try/except` — `storeOk` is whether that write succeeds;
on failure the exception is logged and execution falls through to the
welcome message (whose text shows `get_user_file_limit` and whether the
user id is in `user_subscriptions`). -/
def cmd_start (cfg : Config) (st : Cache) (store : Store) (now u : Int)
    (storeOk : Bool) : Cache × Store × StartResult :=
  if st.banned_users u then (st, store, .bannedNotice)
  else
    let st' := { st with active_users := fun v => v == u || st.active_users v }
    let store' :=
      if storeOk then
        { store with active_users :=
            store.active_users.filter (fun r => !(r.1 == u)) ++ [(u, now, now)] }
      else store
    (st', store', .welcome (get_user_file_limit cfg st' now u)
                           ((st'.user_subscriptions u).isSome))

/-- Outcome of the `upload_file` callback. -/
inductive UploadPromptResult where
  | lockedNotice : UploadPromptResult
  | uploadPrompt (current : Nat) (limit : Limit) : UploadPromptResult
deriving DecidableEq, Repr

/-- `callback_upload_file` (main.py lines 317-356): the lock check (with its
admin bypass) comes first; otherwise the handler shows the current usage and
limit.  It performs no ban check and mutates nothing. -/
def callback_upload_file (cfg : Config) (st : Cache) (now u : Int) :
    UploadPromptResult :=
  if st.bot_locked && !(st.admin_ids u) then .lockedNotice
  else .uploadPrompt (st.user_files u).length (get_user_file_limit cfg st now u)

/-- Outcome of an `Upload` call. -/
inductive UploadResult where
  | ok : UploadResult
  | quotaExceeded : UploadResult
  | invalidType : UploadResult
  | duplicateName : UploadResult
deriving DecidableEq, Repr

/-- Modelled from the spec: the `Upload` handler itself is absent from `src/`
(main.py ends at the menu callbacks; only `get_user_file_limit`, the
`user_files` cache and the menu text that quotes the limit are present).
Per spec section 4.4, `Upload` validates `file_type ∈ {py, js, zip}`, then
`file_name` uniqueness for the user, then checks the Quota Policy — rejecting
with `QuotaExceeded` when `current_count >= Limit(...)` (section 4.2) — and
only then commits the new `FileRecord`. -/
def upload (cfg : Config) (st : Cache) (now u : Int) (name ty : String) :
    Cache × UploadResult :=
  if !(ty == "py" || ty == "js" || ty == "zip") then (st, .invalidType)
  else if (st.user_files u).any (fun r => r.1 == name) then (st, .duplicateName)
  else if !((get_user_file_limit cfg st now u).allows (st.user_files u).length) then
    (st, .quotaExceeded)
  else
    ({ st with user_files :=
        fun v => if v = u then st.user_files u ++ [(name, ty)] else st.user_files v },
     .ok)

/-- The durable schema portion touched by `migrate_db`: whether each of the
three migratable columns exists (`user_files.upload_date`,
`active_users.join_date`, `active_users.last_active`). -/
structure Schema where
  uf_upload_date : Bool
  au_join_date : Bool
  au_last_active : Bool
deriving DecidableEq, Repr

/-- `migrate_db` (main.py lines 88-113): reads `PRAGMA table_info(user_files)`
and adds `upload_date` if absent; then reads `PRAGMA table_info(active_users)`
once and, against that single snapshot, adds `join_date` and `last_active`
if absent.  Returns the final schema together with the list of `ALTER TABLE
... ADD COLUMN` statements it issued, in order. -/
def migrate_db (s : Schema) : Schema × List String :=
  let acts1 : List String := if s.uf_upload_date then [] else ["upload_date"]
  let s1 : Schema := { s with uf_upload_date := true }
  let jd := s1.au_join_date
  let la := s1.au_last_active
  let acts2 : List String := if jd then [] else ["join_date"]
  let s2 : Schema := { s1 with au_join_date := true }
  let acts3 : List String := if la then [] else ["last_active"]
  let s3 : Schema := { s2 with au_last_active := true }
  (s3, acts1 ++ acts2 ++ acts3)

/-! ### Concrete example states, used by witnesses and counterexamples -/

/-- A store with every table empty. -/
def storeEmpty : Store := ⟨[], [], [], [], [], [], []⟩

/-- A well-formed store: one valid subscription, one file, one active user,
the two seeded admins, one banned user, one favorite, the three counters. -/
def storeGood : Store :=
  ⟨[(7, .valid 100)], [(7, "a.py", "py")], [(7, 0, 0)], [1, 2], [9], [(7, "a.py")],
   [("total_uploads", 3), ("total_downloads", 0), ("total_runs", 5)]⟩

/-- A store whose only subscription row has an expiry text that
`datetime.fromisoformat` cannot parse; all other tables are as `init_db`
leaves them for `Config ⟨1, 2⟩`. -/
def storeBadExpiry : Store :=
  ⟨[(7, .invalid "bad")], [], [], [1, 2], [], [],
   [("total_uploads", 0), ("total_downloads", 0), ("total_runs", 0)]⟩

/-- Startup cache for `Config ⟨1, 2⟩` with user 7 banned. -/
def cacheBannedSeven : Cache :=
  { initCache ⟨1, 2⟩ with banned_users := fun v => v == 7 }

/-- Startup cache for `Config ⟨1, 2⟩` with the configured admin (user 2)
banned and the bot locked. -/
def cacheBannedAdmin : Cache :=
  { initCache ⟨1, 2⟩ with banned_users := fun v => v == 2, bot_locked := true }

/-- Startup cache for `Config ⟨1, 2⟩` with the bot locked. -/
def cacheLocked : Cache := { initCache ⟨1, 2⟩ with bot_locked := true }

/-- Startup cache for `Config ⟨1, 2⟩` in which free user 7 already owns
20 files — exactly the free-tier limit. -/
def cacheTwentyFiles : Cache :=
  { initCache ⟨1, 2⟩ with
      user_files := fun v => if v = 7 then List.replicate 20 ("f.py", "py") else [] }

/-! ### Helper lemmas -/

theorem get_user_file_limit_eq_table (cfg : Config) (st : Cache) (now u : Int) :
    get_user_file_limit cfg st now u = specTableLimit (roleOf cfg st now u) := by
  by_cases ho : u = cfg.OWNER_ID
  · simp [get_user_file_limit, roleOf, ho, specTableLimit, OWNER_LIMIT]
  · by_cases ha : st.admin_ids u = true
    · simp [get_user_file_limit, roleOf, ho, ha, specTableLimit, ADMIN_LIMIT]
    · cases hs : st.user_subscriptions u with
      | none =>
          simp [get_user_file_limit, roleOf, ho, ha, subscriptionActive, hs,
                specTableLimit, FREE_USER_LIMIT]
      | some e =>
          by_cases he : e > now
          · simp [get_user_file_limit, roleOf, ho, ha, subscriptionActive, hs, he,
                  specTableLimit, SUBSCRIBED_USER_LIMIT]
          · simp only [gt_iff_lt] at he
            simp [get_user_file_limit, roleOf, ho, ha, subscriptionActive, hs, he,
                  specTableLimit, FREE_USER_LIMIT]

theorem contains_insertOrIgnoreAdmin_self (l : List Int) (u : Int) :
    (insertOrIgnoreAdmin l u).contains u = true := by
  unfold insertOrIgnoreAdmin
  split
  · assumption
  · simp

theorem contains_insertOrIgnoreAdmin_mono (l : List Int) (u v : Int)
    (h : l.contains v = true) : (insertOrIgnoreAdmin l u).contains v = true := by
  unfold insertOrIgnoreAdmin
  split
  · exact h
  · simp_all

theorem load_data_admin_ids (st : Cache) (store : Store) (u : Int) :
    (load_data st store).admin_ids u = (st.admin_ids u || store.admins.contains u) := rfl

theorem migrate_db_schema_full (s : Schema) :
    (migrate_db s).1 = ⟨true, true, true⟩ := by
  obtain ⟨a, b, c⟩ := s
  rfl

theorem load_subs_foldl (rows : List (Int × ExpiryText)) :
    ∀ (f : Int → Option Int) (u : Int),
      (∀ r ∈ rows, (fromisoformat r.2).isSome = true) →
      (rows.foldl (fun f r =>
          match fromisoformat r.2 with
          | some t => fun v => if v = r.1 then some t else f v
          | none => f) f) u
        = match lookupAssignedLast rows u with
          | some e => fromisoformat e
          | none => f u := by
  induction rows with
  | nil => intro f u _; rfl
  | cons r rest ih =>
      intro f u hval
      obtain ⟨t, ht⟩ := Option.isSome_iff_exists.mp (hval r (by simp))
      have hrest : ∀ x ∈ rest, (fromisoformat x.2).isSome = true :=
        fun x hx => hval x (List.mem_cons_of_mem r hx)
      rw [List.foldl_cons]
      simp only [ht]
      rw [ih _ u hrest]
      cases hl : lookupAssignedLast rest u with
      | some e => simp [lookupAssignedLast, hl]
      | none =>
          simp only [lookupAssignedLast, hl]
          by_cases h : u = r.1
          · simp [h, ht]
          · simp [h]

theorem load_files_foldl (rows : List (Int × String × String)) :
    ∀ (f : Int → List (String × String)) (u : Int),
      (rows.foldl (fun f r =>
          fun v => if v = r.1 then f r.1 ++ [(r.2.1, r.2.2)] else f v) f) u
        = f u ++ (rows.filter (fun r => r.1 == u)).map (fun r => (r.2.1, r.2.2)) := by
  induction rows with
  | nil => intro f u; simp
  | cons r rest ih =>
      intro f u
      rw [List.foldl_cons, ih]
      by_cases h : u = r.1
      · simp [List.filter_cons, h, List.append_assoc]
      · have h' : (r.1 == u) = false := by simp [beq_eq_false_iff_ne]; exact fun he => h he.symm
        simp [List.filter_cons, h, h']

theorem load_favs_foldl (rows : List (Int × String)) :
    ∀ (f : Int → List String) (u : Int),
      (rows.foldl (fun f r => fun v => if v = r.1 then f r.1 ++ [r.2] else f v) f) u
        = f u ++ (rows.filter (fun r => r.1 == u)).map (fun r => r.2) := by
  induction rows with
  | nil => intro f u; simp
  | cons r rest ih =>
      intro f u
      rw [List.foldl_cons, ih]
      by_cases h : u = r.1
      · simp [List.filter_cons, h, List.append_assoc]
      · have h' : (r.1 == u) = false := by simp [beq_eq_false_iff_ne]; exact fun he => h he.symm
        simp [List.filter_cons, h, h']

theorem load_stats_foldl (rows : List (String × Int)) :
    ∀ (f : String → Option Int) (s : String),
      (rows.foldl (fun f r => fun t => if t = r.1 then some r.2 else f t) f) s
        = match lookupStatLast rows s with
          | some v => some v
          | none => f s := by
  induction rows with
  | nil => intro f s; rfl
  | cons r rest ih =>
      intro f s
      rw [List.foldl_cons, ih]
      cases hl : lookupStatLast rest s with
      | some v => simp [lookupStatLast, hl]
      | none =>
          simp only [lookupStatLast, hl]
          by_cases h : s = r.1
          · simp [h]
          · simp [h]

/-! ### Claim theorems -/

/-- C1: for every user id, `get_user_file_limit` returns exactly the ceiling
of the spec's quota table — Owner → unbounded sentinel, member of the admin
set → 999, holder of a subscription with `expiry > now` → 50, everyone
else → 20, with precedence in that order. -/
theorem quota_limit_matches_spec_table (cfg : Config) (st : Cache) (now u : Int) :
    get_user_file_limit cfg st now u = specTableLimit (roleOf cfg st now u) :=
  get_user_file_limit_eq_table cfg st now u

/-- C5: the quota limit function is total (its result is always one of the
four table values, for every input) and deterministic — any two calls made
against possibly different program states and at possibly different times,
but with the same role-and-subscription classification, return the same
limit. -/
theorem quota_limit_total_deterministic :
    (∀ (cfg : Config) (st : Cache) (now u : Int),
        get_user_file_limit cfg st now u = .unbounded ∨
        get_user_file_limit cfg st now u = .finite 999 ∨
        get_user_file_limit cfg st now u = .finite 50 ∨
        get_user_file_limit cfg st now u = .finite 20) ∧
    (∀ (cfg₁ : Config) (st₁ : Cache) (now₁ u₁ : Int)
       (cfg₂ : Config) (st₂ : Cache) (now₂ u₂ : Int),
        roleOf cfg₁ st₁ now₁ u₁ = roleOf cfg₂ st₂ now₂ u₂ →
        get_user_file_limit cfg₁ st₁ now₁ u₁ = get_user_file_limit cfg₂ st₂ now₂ u₂) := by
  constructor
  · intro cfg st now u
    rw [get_user_file_limit_eq_table]
    cases roleOf cfg st now u <;> simp [specTableLimit]
  · intro cfg₁ st₁ now₁ u₁ cfg₂ st₂ now₂ u₂ h
    rw [get_user_file_limit_eq_table, get_user_file_limit_eq_table, h]

-- Witness for C5: two calls in unrelated states and at different times, both
-- classifying the user as Free, return the same limit.
theorem quota_limit_total_deterministic_witness :
    get_user_file_limit ⟨1, 2⟩ (initCache ⟨1, 2⟩) 0 7 =
    get_user_file_limit ⟨3, 4⟩ (initCache ⟨3, 4⟩) 100 9 :=
  quota_limit_total_deterministic.2 ⟨1, 2⟩ (initCache ⟨1, 2⟩) 0 7
    ⟨3, 4⟩ (initCache ⟨3, 4⟩) 100 9 (by decide)

/-- C8: `migrate_db` is idempotent and order-independent — from any starting
schema (each of the three migratable columns independently present or
absent) it reaches the same full schema, running it `n + 1` times equals
running it once, and it attempts an `ALTER TABLE ... ADD COLUMN` for a
column exactly when that column is absent at the start (never for one that
already exists). -/
theorem migrate_db_idempotent_order_independent (s : Schema) (n : Nat) :
    (migrate_db s).1 = ⟨true, true, true⟩ ∧
    (fun t => (migrate_db t).1)^[n + 1] s = (migrate_db s).1 ∧
    ((migrate_db s).2.contains "upload_date") = !s.uf_upload_date ∧
    ((migrate_db s).2.contains "join_date") = !s.au_join_date ∧
    ((migrate_db s).2.contains "last_active") = !s.au_last_active := by
  refine ⟨migrate_db_schema_full s, ?_, ?_, ?_, ?_⟩
  · induction n with
    | zero => simp
    | succ k ih =>
        rw [Function.iterate_succ_apply', ih, migrate_db_schema_full s,
            migrate_db_schema_full ⟨true, true, true⟩]
  · obtain ⟨a, b, c⟩ := s; cases a <;> cases b <;> cases c <;> decide
  · obtain ⟨a, b, c⟩ := s; cases a <;> cases b <;> cases c <;> decide
  · obtain ⟨a, b, c⟩ := s; cases a <;> cases b <;> cases c <;> decide

/-- C9: the admin cache always contains both `OWNER_ID` and `ADMIN_ID`:
they are seeded at module initialisation and into the durable `admins` table
by `init_db`, and `load_data` merges the store's admins by union with the
existing cache (never by replacement), so after any number of reloads the
two seeds are still present. -/
theorem admin_seeds_never_lost (cfg : Config) (store : Store) (st : Cache)
    (u : Int) (n : Nat) :
    (initCache cfg).admin_ids cfg.OWNER_ID = true ∧
    (initCache cfg).admin_ids cfg.ADMIN_ID = true ∧
    ((init_db cfg store).admins.contains cfg.OWNER_ID) = true ∧
    ((init_db cfg store).admins.contains cfg.ADMIN_ID) = true ∧
    (load_data st store).admin_ids u = (st.admin_ids u || store.admins.contains u) ∧
    ((fun c => load_data c store)^[n] (initCache cfg)).admin_ids cfg.OWNER_ID = true ∧
    ((fun c => load_data c store)^[n] (initCache cfg)).admin_ids cfg.ADMIN_ID = true := by
  have hinitO : (initCache cfg).admin_ids cfg.OWNER_ID = true := by
    simp [initCache]
  have hinitA : (initCache cfg).admin_ids cfg.ADMIN_ID = true := by
    simp [initCache]
  have hdbO : ((init_db cfg store).admins.contains cfg.OWNER_ID) = true := by
    unfold init_db
    split
    · exact contains_insertOrIgnoreAdmin_mono _ _ _
        (contains_insertOrIgnoreAdmin_self store.admins cfg.OWNER_ID)
    · exact contains_insertOrIgnoreAdmin_self store.admins cfg.OWNER_ID
  have hdbA : ((init_db cfg store).admins.contains cfg.ADMIN_ID) = true := by
    unfold init_db
    split
    · exact contains_insertOrIgnoreAdmin_self _ cfg.ADMIN_ID
    · next heq =>
        rw [not_ne_iff] at heq
        rw [heq]
        exact contains_insertOrIgnoreAdmin_self store.admins cfg.OWNER_ID
  have hiter : ∀ (v : Int), (initCache cfg).admin_ids v = true →
      ∀ m : Nat, ((fun c => load_data c store)^[m] (initCache cfg)).admin_ids v = true := by
    intro v hv m
    induction m with
    | zero => exact hv
    | succ k ih =>
        rw [Function.iterate_succ_apply']
        rw [load_data_admin_ids, ih]
        rfl
  exact ⟨hinitO, hinitA, hdbO, hdbA, load_data_admin_ids st store u,
    hiter cfg.OWNER_ID hinitO n, hiter cfg.ADMIN_ID hinitA n⟩

/-- C10: for a banned caller, `cmd_start` mutates nothing at all — it
returns the ban notice with the in-memory caches (including `active_users`)
and the durable store exactly as they were. -/
theorem cmd_start_banned_no_mutation (cfg : Config) (st : Cache) (store : Store)
    (now u : Int) (storeOk : Bool) (h : st.banned_users u = true) :
    cmd_start cfg st store now u storeOk = (st, store, .bannedNotice) := by
  simp [cmd_start, h]

-- Witness for C10: user 7 is banned; /start leaves state and store untouched.
theorem cmd_start_banned_no_mutation_witness :
    cmd_start ⟨1, 2⟩ cacheBannedSeven storeEmpty 0 7 true =
      (cacheBannedSeven, storeEmpty, .bannedNotice) :=
  cmd_start_banned_no_mutation ⟨1, 2⟩ cacheBannedSeven storeEmpty 0 7 true (by decide)

-- Counterexample for C6: user 2 is in the admin set, yet `cmd_start`
-- rejects their request as banned — the ban check has no admin exemption.
theorem admin_ban_exemption_fails :
    cacheBannedAdmin.admin_ids 2 = true ∧
    cacheBannedAdmin.banned_users 2 = true ∧
    (cmd_start ⟨1, 2⟩ cacheBannedAdmin storeEmpty 0 2 true).2.2 = .bannedNotice := by
  refine ⟨by decide, by decide, ?_⟩
  simp [cmd_start, cacheBannedAdmin, initCache]

/-- C6 (amended): the Owner/Admin exemptions cover only the quota ceiling
and the lock gate — the Owner's limit is the unbounded sentinel (so a quota
check can never reject the Owner) and an admin is never turned away by the
lock check — but the ban check in `cmd_start` applies to admins and the
Owner exactly as to every other user. -/
theorem owner_admin_exemption_scope (cfg : Config) (st : Cache) (store : Store)
    (now u : Int) (storeOk : Bool) :
    get_user_file_limit cfg st now cfg.OWNER_ID = .unbounded ∧
    (st.admin_ids u = true → callback_upload_file cfg st now u ≠ .lockedNotice) ∧
    (st.banned_users u = true →
      (cmd_start cfg st store now u storeOk).2.2 = .bannedNotice) := by
  refine ⟨?_, ?_, ?_⟩
  · simp [get_user_file_limit, OWNER_LIMIT]
  · intro ha
    simp [callback_upload_file, ha]
  · intro hb
    simp [cmd_start, hb]

-- Witness for C6 (amended): the banned admin of `cacheBannedAdmin` passes
-- the lock gate of the upload callback but is rejected as banned by /start.
theorem owner_admin_exemption_scope_witness :
    callback_upload_file ⟨1, 2⟩ cacheBannedAdmin 0 2 ≠ .lockedNotice ∧
    (cmd_start ⟨1, 2⟩ cacheBannedAdmin storeEmpty 0 2 true).2.2 = .bannedNotice :=
  ⟨(owner_admin_exemption_scope ⟨1, 2⟩ cacheBannedAdmin storeEmpty 0 2 true).2.1
      (by decide),
   (owner_admin_exemption_scope ⟨1, 2⟩ cacheBannedAdmin storeEmpty 0 2 true).2.2
      (by decide)⟩

-- Counterexample for C7: the upload callback performs no ban check at all —
-- banned (non-admin) user 7, with the bot unlocked, receives the normal
-- upload prompt instead of a rejection.
theorem ban_check_missing_in_upload_callback :
    cacheBannedSeven.banned_users 7 = true ∧
    callback_upload_file ⟨1, 2⟩ cacheBannedSeven 0 7 =
      .uploadPrompt 0 (.finite 20) := by
  refine ⟨by decide, ?_⟩
  simp [callback_upload_file, cacheBannedSeven, initCache, get_user_file_limit,
        FREE_USER_LIMIT]

/-- C7 (amended): each handler evaluates the one guard it implements before
anything else and short-circuits on it: `cmd_start` checks Banned first and,
when it fires, returns the rejection with no other check and no mutation of
cache or store (it implements no Locked check); `callback_upload_file`
checks Locked — with its admin bypass — first and, when it fires, returns
the rejection without computing usage or limit (it implements no Banned
check and never mutates). -/
theorem guard_checks_short_circuit (cfg : Config) (st : Cache) (store : Store)
    (now u : Int) (storeOk : Bool) :
    (st.banned_users u = true →
      cmd_start cfg st store now u storeOk = (st, store, .bannedNotice)) ∧
    (st.bot_locked = true → st.admin_ids u = false →
      callback_upload_file cfg st now u = .lockedNotice) := by
  constructor
  · intro hb
    simp [cmd_start, hb]
  · intro hl ha
    simp [callback_upload_file, hl, ha]

-- Witness for C7 (amended): banned user 7 short-circuits /start; with the
-- bot locked, non-admin user 7 short-circuits the upload callback.
theorem guard_checks_short_circuit_witness :
    cmd_start ⟨1, 2⟩ cacheBannedSeven storeEmpty 0 7 true =
      (cacheBannedSeven, storeEmpty, .bannedNotice) ∧
    callback_upload_file ⟨1, 2⟩ cacheLocked 0 7 = .lockedNotice :=
  ⟨(guard_checks_short_circuit ⟨1, 2⟩ cacheBannedSeven storeEmpty 0 7 true).1
      (by decide),
   (guard_checks_short_circuit ⟨1, 2⟩ cacheLocked storeEmpty 0 7 true).2
      (by decide) (by decide)⟩

-- Counterexample for C4: when the store write of `cmd_start` fails, the
-- cache has already been mutated (user 7 became active) and the handler
-- completes with the welcome message — not with `PersistenceError`.
theorem store_write_failure_not_atomic :
    (initCache ⟨1, 2⟩).active_users 7 = false ∧
    (cmd_start ⟨1, 2⟩ (initCache ⟨1, 2⟩) storeEmpty 0 7 false).1.active_users 7 = true ∧
    (cmd_start ⟨1, 2⟩ (initCache ⟨1, 2⟩) storeEmpty 0 7 false).2.2 ≠
      .persistenceError := by
  refine ⟨by decide, ?_, ?_⟩
  · simp [cmd_start, initCache]
  · simp [cmd_start, initCache]

/-- C4 (amended): `cmd_start` updates the cache before its single store-write
attempt; when that write fails, the exception is only logged — the cache
keeps the update, the store is unchanged, there is no retry, and the handler
still completes with the welcome message rather than a `PersistenceError`. -/
theorem cmd_start_cache_first_store_failure_ignored (cfg : Config) (st : Cache)
    (store : Store) (now u : Int) (h : st.banned_users u = false) :
    cmd_start cfg st store now u false =
      ({ st with active_users := fun v => v == u || st.active_users v }, store,
       .welcome (get_user_file_limit cfg st now u)
                ((st.user_subscriptions u).isSome)) := by
  simp [cmd_start, h]
  rfl

-- Witness for C4 (amended): unbanned user 7, failing store write.
theorem cmd_start_cache_first_store_failure_ignored_witness :
    cmd_start ⟨1, 2⟩ (initCache ⟨1, 2⟩) storeEmpty 0 7 false =
      ({ initCache ⟨1, 2⟩ with
           active_users := fun v => v == 7 || (initCache ⟨1, 2⟩).active_users v },
       storeEmpty,
       .welcome (get_user_file_limit ⟨1, 2⟩ (initCache ⟨1, 2⟩) 0 7)
                (((initCache ⟨1, 2⟩).user_subscriptions 7).isSome)) :=
  cmd_start_cache_first_store_failure_ignored ⟨1, 2⟩ (initCache ⟨1, 2⟩)
    storeEmpty 0 7 (by decide)

/-- Projections of `get_user_file_limit` ignore the `user_files` cache, so
replacing it leaves the limit unchanged. -/
theorem get_user_file_limit_files_congr (cfg : Config) (st : Cache)
    (now u : Int) (f : Int → List (String × String)) :
    get_user_file_limit cfg { st with user_files := f } now u =
      get_user_file_limit cfg st now u := rfl

/-- C2 (spec-modelled `upload`): an upload whose type is valid and whose name
is fresh is rejected with `QuotaExceeded` exactly when the user's current
file count has no room under `get_user_file_limit`; and the quota invariant
`FileCount(user) <= Limit` is preserved by every `upload` call. -/
theorem upload_quota_invariant (cfg : Config) (st : Cache) (now u : Int)
    (name ty : String) :
    ((get_user_file_limit cfg st now u).atMost (st.user_files u).length = true →
      (get_user_file_limit cfg (upload cfg st now u name ty).1 now u).atMost
        ((upload cfg st now u name ty).1.user_files u).length = true) ∧
    ((ty == "py" || ty == "js" || ty == "zip") = true →
      ((st.user_files u).any (fun r => r.1 == name)) = false →
      (get_user_file_limit cfg st now u).allows (st.user_files u).length = false →
      (upload cfg st now u name ty).2 = .quotaExceeded) := by
  constructor
  · intro hinv
    unfold upload
    split
    · exact hinv
    · split
      · exact hinv
      · split
        · exact hinv
        · next hroom =>
            rw [Bool.not_eq_true', Bool.not_eq_false] at hroom
            rw [get_user_file_limit_files_congr]
            cases hl : get_user_file_limit cfg st now u with
            | unbounded => rfl
            | finite n =>
                rw [hl] at hroom
                simp only [Limit.allows, decide_eq_true_eq] at hroom
                simp [Limit.atMost]
                omega
  · intro hty hname hroom
    simp [upload, hty, hname, hroom]

-- Witness for C2: free user 7 already holds 20 files (the free limit);
-- a fresh, well-typed upload is rejected with QuotaExceeded, and the
-- invariant 20 <= 20 still holds afterwards.
theorem upload_quota_invariant_witness :
    (get_user_file_limit ⟨1, 2⟩ (upload ⟨1, 2⟩ cacheTwentyFiles 0 7 "g.py" "py").1
        0 7).atMost
      ((upload ⟨1, 2⟩ cacheTwentyFiles 0 7 "g.py" "py").1.user_files 7).length = true ∧
    (upload ⟨1, 2⟩ cacheTwentyFiles 0 7 "g.py" "py").2 = .quotaExceeded :=
  ⟨(upload_quota_invariant ⟨1, 2⟩ cacheTwentyFiles 0 7 "g.py" "py").1 (by decide),
   (upload_quota_invariant ⟨1, 2⟩ cacheTwentyFiles 0 7 "g.py" "py").2
      (by decide) (by decide) (by decide)⟩

-- Counterexample for C3: the durable store holds a subscription row for
-- user 7, but after a restart's `load_data` the rebuilt cache holds no
-- entry for user 7 — the row's expiry text fails `datetime.fromisoformat`
-- and the `except ValueError` branch skips it, so cache and table differ.
theorem reload_cache_misses_store_row :
    lookupAssignedLast storeBadExpiry.subscriptions 7 =
      some (.invalid "bad") ∧
    (load_data (initCache ⟨1, 2⟩) storeBadExpiry).user_subscriptions 7 = none := by
  exact ⟨by decide, rfl⟩

/-- C3 (amended): after a restart, `load_data` on the startup-initial caches
rebuilds every in-memory cache to exactly the corresponding table contents
of the durable store — no extra and no missing entries — provided every
subscription row's expiry text parses (rows on which `fromisoformat` raises
`ValueError` are skipped), the store's `admins` table contains the two ids
seeded at module initialisation, and the store's `bot_stats` table contains
the three counter rows (all of which `init_db` guarantees for a store the
program itself produced). -/
theorem load_data_rebuilds_caches (cfg : Config) (store : Store)
    (hsub : ∀ r ∈ store.subscriptions, (fromisoformat r.2).isSome = true)
    (hadmO : store.admins.contains cfg.OWNER_ID = true)
    (hadmA : store.admins.contains cfg.ADMIN_ID = true)
    (hup : (lookupStatLast store.bot_stats "total_uploads").isSome = true)
    (hdown : (lookupStatLast store.bot_stats "total_downloads").isSome = true)
    (hruns : (lookupStatLast store.bot_stats "total_runs").isSome = true) :
    (∀ u, (load_data (initCache cfg) store).user_subscriptions u =
        match lookupAssignedLast store.subscriptions u with
        | some e => fromisoformat e
        | none => none) ∧
    (∀ u, (load_data (initCache cfg) store).user_files u =
        (store.user_files.filter (fun r => r.1 == u)).map (fun r => (r.2.1, r.2.2))) ∧
    (∀ u, (load_data (initCache cfg) store).active_users u =
        store.active_users.any (fun r => r.1 == u)) ∧
    (∀ u, (load_data (initCache cfg) store).admin_ids u =
        store.admins.contains u) ∧
    (∀ u, (load_data (initCache cfg) store).banned_users u =
        store.banned_users.contains u) ∧
    (∀ u, (load_data (initCache cfg) store).user_favorites u =
        (store.favorites.filter (fun r => r.1 == u)).map (fun r => r.2)) ∧
    (∀ s, (load_data (initCache cfg) store).bot_stats s =
        lookupStatLast store.bot_stats s) := by
  refine ⟨?_, ?_, ?_, ?_, ?_, ?_, ?_⟩
  · intro u
    have h1 := load_subs_foldl store.subscriptions
      (initCache cfg).user_subscriptions u hsub
    refine h1.trans ?_
    cases lookupAssignedLast store.subscriptions u <;> rfl
  · intro u
    have h2 := load_files_foldl store.user_files (initCache cfg).user_files u
    refine h2.trans ?_
    simp [initCache]
  · intro u
    rfl
  · intro u
    rw [load_data_admin_ids]
    by_cases hu : store.admins.contains u = true
    · rw [hu, Bool.or_true]
    · simp only [Bool.not_eq_true] at hu
      have h1 : u ≠ cfg.ADMIN_ID := by
        intro he; rw [he, hadmA] at hu; exact Bool.noConfusion hu
      have h2 : u ≠ cfg.OWNER_ID := by
        intro he; rw [he, hadmO] at hu; exact Bool.noConfusion hu
      have hinit : (initCache cfg).admin_ids u = false := by
        simp [initCache, h1, h2]
      rw [hinit, hu]
      rfl
  · intro u
    rfl
  · intro u
    have h3 := load_favs_foldl store.favorites (initCache cfg).user_favorites u
    refine h3.trans ?_
    simp [initCache]
  · intro s
    have h4 := load_stats_foldl store.bot_stats (initCache cfg).bot_stats s
    refine h4.trans ?_
    cases hl : lookupStatLast store.bot_stats s with
    | some v => rfl
    | none =>
        by_cases hs : s = "total_uploads" ∨ s = "total_downloads" ∨ s = "total_runs"
        · exfalso
          rcases hs with h | h | h
          · rw [h] at hl; rw [hl] at hup; exact Bool.false_ne_true hup
          · rw [h] at hl; rw [hl] at hdown; exact Bool.false_ne_true hdown
          · rw [h] at hl; rw [hl] at hruns; exact Bool.false_ne_true hruns
        · simp [initCache, hs]

-- Witness for C3 (amended): on the well-formed store `storeGood`, the
-- rebuilt caches agree with the tables at sample keys.
theorem load_data_rebuilds_caches_witness :
    (load_data (initCache ⟨1, 2⟩) storeGood).user_subscriptions 7 = some 100 ∧
    (load_data (initCache ⟨1, 2⟩) storeGood).user_files 7 = [("a.py", "py")] ∧
    (load_data (initCache ⟨1, 2⟩) storeGood).admin_ids 9 = false ∧
    (load_data (initCache ⟨1, 2⟩) storeGood).bot_stats "total_runs" = some 5 := by
  have h := load_data_rebuilds_caches ⟨1, 2⟩ storeGood (by decide) (by decide)
    (by decide) (by decide) (by decide) (by decide)
  exact ⟨(h.1 7).trans (by decide),
         (h.2.1 7).trans (by decide),
         (h.2.2.2.1 9).trans (by decide),
         (h.2.2.2.2.2.2 "total_runs").trans (by decide)⟩

end AssassinHosting
